import Mathlib

/-!
Verification of the anon-spliit lockout / rate-limiting core.

Shallow embedding of:
* the server-side rate limiter (`src/unnamed/part_007`): in-memory backend,
  database backend stub for the synchronous path, storage factory;
* the client-side password prompt orchestration (`src/unnamed/part_002`):
  rate-limit state, `isRateLimited`, `handleSubmit`;
* the tRPC operation rate-limit middleware (`src/src/trpc/init.ts`).

Timestamps are naturals (milliseconds).  JavaScript `a - b > W` on timestamps
agrees with truncated `Nat` subtraction here: when `a < b` both sides give
`false`.  Successive `Date.now()` reads inside one handler run are modelled as
a single instant `now`.
-/

namespace RateLimit

/-- Configuration constants from `src/unnamed/part_007` lines 22-24. -/
def MAX_ATTEMPTS : Nat := 5

def WINDOW_MS : Nat := 15 * 60 * 1000

def LOCKOUT_MS : Nat := 30 * 60 * 1000

/-- `Math.ceil (a / 1000)` on a non-negative integer difference. -/
def ceilDiv1000 (a : Nat) : Nat := (a + 999) / 1000

/-- `AttemptRecord` from `part_007` lines 36-40. -/
structure AttemptRecord where
  count : Nat
  firstAttempt : Nat
  lockedUntil : Option Nat
  deriving Repr, DecidableEq

/-- The in-memory backend's `Map<string, AttemptRecord>`. -/
def Store := String → Option AttemptRecord

/-- `Map.set` / `Map.delete` (delete when the value is `none`). -/
def Store.update (s : Store) (k : String) (v : Option AttemptRecord) : Store :=
  fun k2 => if k2 = k then v else s k2

def Store.empty : Store := fun _ => none

/-- Result shape of `checkRateLimit` / `checkRateLimitSync` (lines 279-305). -/
structure CheckResult where
  isLimited : Bool
  retryAfter : Option Nat
  remainingAttempts : Option Nat
  deriving Repr, DecidableEq

/-- The allowed-with-full-attempts result `\x7b isLimited: false,
remainingAttempts: MAX_ATTEMPTS \x7d`. -/
def allowedFull : CheckResult :=
  { isLimited := false, retryAfter := none, remainingAttempts := some MAX_ATTEMPTS }

/-- `checkRateLimitSync` on the memory backend (`part_007` lines 313-352):
reads the internal map, and may delete an expired window or set a missing
lockout as a side effect, so it returns the new store too. -/
def checkSyncMem (s : Store) (key : String) (now : Nat) : CheckResult × Store :=
  match s key with
  | none => (allowedFull, s)
  | some r =>
    match r.lockedUntil with
    | some l =>
      if now < l then
        ({ isLimited := true, retryAfter := some (ceilDiv1000 (l - now)),
           remainingAttempts := none }, s)
      else checkSyncMemUnlocked s key now r
    | none => checkSyncMemUnlocked s key now r
where
  /-- The branches after the `record.lockedUntil && now < record.lockedUntil`
  test fails (lines 332-352). -/
  checkSyncMemUnlocked (s : Store) (key : String) (now : Nat) (r : AttemptRecord) :
      CheckResult × Store :=
    if now - r.firstAttempt > WINDOW_MS then
      (allowedFull, s.update key none)
    else if r.count ≥ MAX_ATTEMPTS then
      ({ isLimited := true, retryAfter := some (ceilDiv1000 LOCKOUT_MS),
         remainingAttempts := none },
       s.update key (some { r with lockedUntil := some (now + LOCKOUT_MS) }))
    else
      ({ isLimited := false, retryAfter := none,
         remainingAttempts := some (MAX_ATTEMPTS - r.count) }, s)

/-- `recordFailedAttempt`, memory-backend branch (`part_007` lines 407-429). -/
def recordFailedAttempt (s : Store) (key : String) (now : Nat) : Store :=
  match s key with
  | none => s.update key (some { count := 1, firstAttempt := now, lockedUntil := none })
  | some r =>
    if now - r.firstAttempt > WINDOW_MS then
      s.update key (some { count := 1, firstAttempt := now, lockedUntil := none })
    else
      let c := r.count + 1
      s.update key (some { r with
        count := c
        lockedUntil := if c ≥ MAX_ATTEMPTS then some (now + LOCKOUT_MS) else r.lockedUntil })

/-- `clearAttempts`, memory-backend branch (`part_007` lines 466-482). -/
def clearAttempts (s : Store) (key : String) : Store := s.update key none

/-- Fold `recordFailedAttempt` over a list of timestamps. -/
def recordMany (s : Store) (key : String) (times : List Nat) : Store :=
  times.foldl (fun acc t => recordFailedAttempt acc key t) s

/-- `RATE_LIMIT_STORAGE` values (`part_007` line 28). -/
inductive StorageType
  | memory
  | database
  | auto
  deriving Repr, DecidableEq

/-- Which concrete storage class the factory ends up holding. -/
inductive Backend
  | memory
  | database
  deriving Repr, DecidableEq

/-- `getStorage` (`part_007` lines 222-258): `database` always picks the
database class; `auto` probes the `RateLimitAttempt` table and falls back to
the in-memory class when it is unreachable; the default is memory. -/
def resolveBackend (cfg : StorageType) (dbReachable : Bool) : Backend :=
  match cfg with
  | .database => .database
  | .auto => if dbReachable then .database else .memory
  | .memory => .memory

/-- Server-side state: the chosen backend, the in-memory map, and the
database table contents (as seen through the storage capability). -/
structure SysState where
  backend : Backend
  mem : Store
  db : Store

/-- `checkRateLimit` (`part_007` lines 279-295): lower-cases the identity and
runs `checkRateLimitSync` against `getStorageSync()`.  When the active store
is not a `MemoryStorage` instance, `checkRateLimitSync` returns
not-limited with full remaining attempts without consulting storage
(lines 307-311). -/
def checkRateLimitSys (st : SysState) (email : String) (now : Nat) :
    CheckResult × SysState :=
  match st.backend with
  | .database => (allowedFull, st)
  | .memory =>
    let p := checkSyncMem st.mem email.toLower now
    (p.1, { st with mem := p.2 })

/-- `recordFailedAttempt` at the system level: the memory branch mutates the
map synchronously; the database branch fires an async upsert recorded into
the table contents (lines 430-460). -/
def recordFailedAttemptSys (st : SysState) (email : String) (now : Nat) : SysState :=
  match st.backend with
  | .memory => { st with mem := recordFailedAttempt st.mem email.toLower now }
  | .database => { st with db := recordFailedAttempt st.db email.toLower now }

/-- `clearAttempts` at the system level (lines 466-490). -/
def clearAttemptsSys (st : SysState) (email : String) : SysState :=
  match st.backend with
  | .memory => { st with mem := clearAttempts st.mem email.toLower }
  | .database => { st with db := clearAttempts st.db email.toLower }

/-- One externally invokable rate-limiter operation. -/
inductive Op
  | check (email : String) (now : Nat)
  | record (email : String) (now : Nat)
  | reset (email : String)

/-- Run a list of operations, collecting the result of every `check`. -/
def runOps (st : SysState) : List Op → List CheckResult
  | [] => []
  | .check e n :: rest =>
    let p := checkRateLimitSys st e n
    p.1 :: runOps p.2 rest
  | .record e n :: rest => runOps (recordFailedAttemptSys st e n) rest
  | .reset e :: rest => runOps (clearAttemptsSys st e) rest

/-- A fresh system configured with `cfg`, given whether the database table is
reachable: the backend is what `getStorage` resolves to, and both stores
start empty. -/
def initSys (cfg : StorageType) (dbReachable : Bool) : SysState :=
  { backend := resolveBackend cfg dbReachable, mem := Store.empty, db := Store.empty }

/-- Observable behaviour of a whole configuration on a call sequence. -/
def runSystem (cfg : StorageType) (dbReachable : Bool) (ops : List Op) :
    List CheckResult :=
  runOps (initSys cfg dbReachable) ops

end RateLimit

namespace Client

/-- Client-side constants (`src/unnamed/part_002` lines 27-29). -/
def RATE_LIMIT_ATTEMPTS : Nat := 5

def RATE_LIMIT_WINDOW_MS : Nat := 60000

def LOCKOUT_DURATION_MS : Nat := 300000

/-- The React rate-limit state of `PasswordPrompt`: the `attempts` timestamp
list and `lockedUntil` (lines 82-83), which is also the JSON shape persisted
to `localStorage` (lines 34-37). -/
structure ClientState where
  attempts : List Nat
  lockedUntil : Option Nat
  deriving Repr, DecidableEq

/-- `isRateLimited` (`part_002` lines 110-125): an active lock blocks
immediately; otherwise stale attempts are filtered out (and written back via
`setAttempts`) and the recent count is compared with the limit. -/
def isRateLimited (s : ClientState) (now : Nat) : Bool × ClientState :=
  match s.lockedUntil with
  | some l => if now < l then (true, s) else isRateLimitedWindow s now
  | none => isRateLimitedWindow s now
where
  /-- Lines 118-124: filter attempts to the window and compare with the limit. -/
  isRateLimitedWindow (s : ClientState) (now : Nat) : Bool × ClientState :=
    let recent := s.attempts.filter (fun t => now - t < RATE_LIMIT_WINDOW_MS)
    (decide (recent.length ≥ RATE_LIMIT_ATTEMPTS), { s with attempts := recent })

/-- The cryptographic capability used by `handleSubmit`: `base64ToKey`,
`deriveKeyFromPassword`, `combineKeys` from `@/lib/crypto`, and `decryptOk`
telling whether `decrypt(ciphertext, key)` succeeds (it throws on failure).
Keys are byte lists. -/
structure CryptoOps where
  base64ToKey : String → List Nat
  deriveKeyFromPassword : String → List Nat → Nat → List Nat
  combineKeys : List Nat → List Nat → List Nat
  decryptOk : String → List Nat → Bool

/-- Observable outcome of one submission: which error is surfaced, or the key
handed to `onSuccess`. -/
inductive Outcome
  | emptyPassword
  | blocked
  | success (key : List Nat)
  | invalid
  deriving Repr, DecidableEq

/-- Result of a `handleSubmit` run: the outcome, the rate-limit state after
the run, and how many times key derivation and probe decryption ran. -/
structure SubmitResult where
  outcome : Outcome
  state : ClientState
  deriveCalls : Nat
  decryptCalls : Nat
  deriving Repr, DecidableEq

/-- The `!password.trim()` guard (`part_002` line 130): the submission is
rejected when the password consists of whitespace only, i.e. JavaScript
`trim` yields the empty string. -/
def isBlank (s : String) : Bool := s.data.all Char.isWhitespace

/-- `handleSubmit` (`part_002` lines 127-203).  `localWriteOk` /
`sessionWriteOk` say whether `localStorage.setItem` / `sessionStorage.setItem`
succeed on the success path.  The `localStorage` write sits in its own
try/catch (lines 182-186) so its failure is swallowed; the `sessionStorage`
write (lines 189-192) is only guarded by the outer try whose catch (lines
195-199) records a failed attempt and shows the invalid-password error. -/
def handleSubmit (ops : CryptoOps) (passwordSalt : String) (urlKey : Option (List Nat))
    (encryptedGroupName : Option String) (password : String)
    (localWriteOk sessionWriteOk : Bool) (s : ClientState) (now : Nat) : SubmitResult :=
  if isBlank password then ⟨.emptyPassword, s, 0, 0⟩
  else if (isRateLimited s now).1 then
    let s1 := (isRateLimited s now).2
    let s2 :=
      match s1.lockedUntil with
      | some l =>
        if l ≤ now then { s1 with lockedUntil := some (now + LOCKOUT_DURATION_MS) }
        else s1
      | none => { s1 with lockedUntil := some (now + LOCKOUT_DURATION_MS) }
    ⟨.blocked, s2, 0, 0⟩
  else
    let s1 := (isRateLimited s now).2
    let salt := ops.base64ToKey passwordSalt
    let keyLengthBytes := match urlKey with | some k => k.length | none => 32
    let passwordKey := ops.deriveKeyFromPassword password salt keyLengthBytes
    let finalKey := match urlKey with | some k => ops.combineKeys k passwordKey | none => passwordKey
    match encryptedGroupName with
    | some c =>
      if ops.decryptOk c finalKey then successTail finalKey localWriteOk sessionWriteOk s1 now 1
      else ⟨.invalid, { s1 with attempts := s1.attempts ++ [now] }, 1, 1⟩
    | none => successTail finalKey localWriteOk sessionWriteOk s1 now 0
where
  /-- Lines 180-202: persist the key, then call `onSuccess`.  The
  `localStorage` write failure is swallowed by its own catch, so the result
  does not depend on it; a `sessionStorage` failure falls into the outer
  catch. -/
  successTail (finalKey : List Nat) (_localWriteOk sessionWriteOk : Bool)
      (s1 : ClientState) (now : Nat) (dc : Nat) : SubmitResult :=
    if sessionWriteOk then ⟨.success finalKey, s1, 1, dc⟩
    else ⟨.invalid, { s1 with attempts := s1.attempts ++ [now] }, 1, dc⟩

/-- `loadRateLimitState` (`part_002` lines 40-50): `readOk` says whether the
`localStorage.getItem` + `JSON.parse` pair succeeds; on failure the state is
reported absent. -/
def loadRateLimitState (readOk : Bool) (stored : Option ClientState) : Option ClientState :=
  if readOk then stored else none

end Client

namespace Middleware

/-- Result of `checkOperationRateLimit` as consumed by the middleware
(`src/src/trpc/init.ts` lines 153-157). -/
structure OpCheckResult where
  isLimited : Bool
  retryAfter : Option Nat
  deriving Repr, DecidableEq

/-- Observable events of one middleware run, in order. -/
inductive Event
  | checked (key : String)
  | recorded (key : String)
  | handlerRun
  deriving Repr, DecidableEq

/-- Either the middleware threw `TOO_MANY_REQUESTS` (whose message embeds the
retry time in seconds from the check result) or the call went through. -/
inductive MWOutcome
  | tooManyRequests (retryAfter : Option Nat)
  | handled
  deriving Repr, DecidableEq

/-- JavaScript truthiness of `inputData?.groupId`: absent input, absent field
and the empty string are all falsy. -/
def truthyId : Option String → Bool
  | none => false
  | some g => !g.isEmpty

/-- `createRateLimitMiddleware` (`init.ts` lines 130-171), with the imported
`checkOperationRateLimit` closed over its `maxAttempts`/`windowMs` arguments
as the abstract `check : key → OpCheckResult`; `parsedGroupId` / `rawGroupId`
are the `groupId` fields of the parsed input and of `getRawInput()`.  The
trace records the check, the `recordOperationAttempt` call and the handler
invocation in execution order. -/
def rateLimitMiddleware (operation : String) (check : String → OpCheckResult)
    (parsedGroupId rawGroupId : Option String) : MWOutcome × List Event :=
  let inputData := if truthyId parsedGroupId then parsedGroupId else rawGroupId
  match inputData with
  | none => (.handled, [.handlerRun])
  | some g =>
    if g.isEmpty then (.handled, [.handlerRun])
    else
      let key := operation ++ ":" ++ g
      let r := check key
      if r.isLimited then (.tooManyRequests r.retryAfter, [.checked key])
      else (.handled, [.checked key, .recorded key, .handlerRun])

end Middleware

namespace RateLimit

/-- What one `recordFailedAttempt` call leaves under the recorded key. -/
theorem recordFailedAttempt_get (s : Store) (key : String) (now : Nat) :
    recordFailedAttempt s key now key =
      match s key with
      | none => some { count := 1, firstAttempt := now, lockedUntil := none }
      | some r =>
        if WINDOW_MS < now - r.firstAttempt then
          some { count := 1, firstAttempt := now, lockedUntil := none }
        else
          some { count := r.count + 1, firstAttempt := r.firstAttempt,
                 lockedUntil := if MAX_ATTEMPTS ≤ r.count + 1 then some (now + LOCKOUT_MS)
                                else r.lockedUntil } := by
  rcases hs : s key with _ | r <;>
    simp only [recordFailedAttempt, hs] <;>
    [skip; split] <;> simp [Store.update]

end RateLimit

/-- C1: starting from no prior state for an identity, after exactly
`MAX_ATTEMPTS` (= 5) recorded failures all falling within one window of the
first, the synchronous status check at the time of the last failure reports
not-allowed with `retryAfter` equal to the configured lockout duration in
seconds. -/
theorem c1_max_attempts_locks_for_full_lockout
    (key : String) (t1 t2 t3 t4 t5 : Nat)
    (h2 : t2 - t1 ≤ RateLimit.WINDOW_MS) (h3 : t3 - t1 ≤ RateLimit.WINDOW_MS)
    (h4 : t4 - t1 ≤ RateLimit.WINDOW_MS) (h5 : t5 - t1 ≤ RateLimit.WINDOW_MS) :
    (RateLimit.checkSyncMem
        (RateLimit.recordMany RateLimit.Store.empty key [t1, t2, t3, t4, t5]) key t5).1
      = { isLimited := true, retryAfter := some (RateLimit.LOCKOUT_MS / 1000),
          remainingAttempts := none } := by
  have H2 := Nat.not_lt.mpr h2
  have H3 := Nat.not_lt.mpr h3
  have H4 := Nat.not_lt.mpr h4
  have H5 := Nat.not_lt.mpr h5
  have g1 : RateLimit.recordFailedAttempt RateLimit.Store.empty key t1 key
      = some { count := 1, firstAttempt := t1, lockedUntil := none } := by
    rw [RateLimit.recordFailedAttempt_get]; rfl
  have g2 : RateLimit.recordFailedAttempt
        (RateLimit.recordFailedAttempt RateLimit.Store.empty key t1) key t2 key
      = some { count := 2, firstAttempt := t1, lockedUntil := none } := by
    rw [RateLimit.recordFailedAttempt_get, g1]
    simp [H2, RateLimit.MAX_ATTEMPTS]
  have g3 : RateLimit.recordFailedAttempt (RateLimit.recordFailedAttempt
        (RateLimit.recordFailedAttempt RateLimit.Store.empty key t1) key t2) key t3 key
      = some { count := 3, firstAttempt := t1, lockedUntil := none } := by
    rw [RateLimit.recordFailedAttempt_get, g2]
    simp [H3, RateLimit.MAX_ATTEMPTS]
  have g4 : RateLimit.recordFailedAttempt (RateLimit.recordFailedAttempt
        (RateLimit.recordFailedAttempt (RateLimit.recordFailedAttempt
          RateLimit.Store.empty key t1) key t2) key t3) key t4 key
      = some { count := 4, firstAttempt := t1, lockedUntil := none } := by
    rw [RateLimit.recordFailedAttempt_get, g3]
    simp [H4, RateLimit.MAX_ATTEMPTS]
  have g5 : RateLimit.recordFailedAttempt (RateLimit.recordFailedAttempt
        (RateLimit.recordFailedAttempt (RateLimit.recordFailedAttempt
          (RateLimit.recordFailedAttempt RateLimit.Store.empty key t1) key t2) key t3)
        key t4) key t5 key
      = some { count := 5, firstAttempt := t1, lockedUntil := some (t5 + RateLimit.LOCKOUT_MS) } := by
    rw [RateLimit.recordFailedAttempt_get, g4]
    simp [H5, RateLimit.MAX_ATTEMPTS]
  simp only [RateLimit.recordMany, List.foldl]
  unfold RateLimit.checkSyncMem
  rw [g5]
  simp [RateLimit.LOCKOUT_MS, RateLimit.ceilDiv1000]

/-- Witness for C1 at concrete inputs. -/
theorem c1_max_attempts_locks_for_full_lockout_witness :
    (RateLimit.checkSyncMem
        (RateLimit.recordMany RateLimit.Store.empty "alice@example.com"
          [100, 150, 200, 250, 300]) "alice@example.com" 300).1
      = { isLimited := true, retryAfter := some (RateLimit.LOCKOUT_MS / 1000),
          remainingAttempts := none } :=
  c1_max_attempts_locks_for_full_lockout "alice@example.com" 100 150 200 250 300
    (by decide) (by decide) (by decide) (by decide)

/-- C2 counterexample: an identity whose record is still locked
(`lockedUntil = 1800000`, `now = 1000000 < 1800000`) but whose window has
lapsed (`now - firstAttempt = 1000000 > WINDOW_MS`): `recordFailedAttempt`
replaces the locked window with a fresh unlocked window of count 1, removing
the active lock. -/
theorem c2_counterexample_record_erases_active_lock :
    (1000000 : Nat) < 1800000 ∧
      RateLimit.recordFailedAttempt
          (RateLimit.Store.empty.update "k"
            (some { count := 5, firstAttempt := 0, lockedUntil := some 1800000 }))
          "k" 1000000 "k"
        = some { count := 1, firstAttempt := 1000000, lockedUntil := none } :=
  ⟨by decide, by decide⟩

/-- C2 (amended): if `lockedUntil` is present and in the future, `checkStatus`
reports not-allowed regardless of `count`; and `recordFailure` does not
replace a locked window with a fresh unlocked window provided the attempt
window has not lapsed.  (When the window has lapsed, `recordFailure` starts a
fresh unlocked window even while a lock is active.) -/
theorem c2_active_lock_blocks_and_survives_record
    (s : RateLimit.Store) (key : String) (now : Nat)
    (r : RateLimit.AttemptRecord) (l : Nat)
    (hr : s key = some r) (hl : r.lockedUntil = some l) (hnow : now < l) :
    (RateLimit.checkSyncMem s key now).1.isLimited = true ∧
    (now - r.firstAttempt ≤ RateLimit.WINDOW_MS →
      ∃ r2, RateLimit.recordFailedAttempt s key now key = some r2
        ∧ r2.lockedUntil.isSome) := by
  constructor
  · unfold RateLimit.checkSyncMem
    simp only [hr]
    simp [hl, hnow]
  · intro hw
    rw [RateLimit.recordFailedAttempt_get, hr]
    simp only [Nat.not_lt.mpr hw, if_false]
    refine ⟨_, rfl, ?_⟩
    split <;> simp [hl]

/-- Witness for the amended C2 at concrete inputs. -/
theorem c2_active_lock_blocks_and_survives_record_witness :
    (RateLimit.checkSyncMem
        (RateLimit.Store.empty.update "k"
          (some { count := 1, firstAttempt := 0, lockedUntil := some 500000 }))
        "k" 100).1.isLimited = true ∧
    ((100 : Nat) - 0 ≤ RateLimit.WINDOW_MS →
      ∃ r2, RateLimit.recordFailedAttempt
          (RateLimit.Store.empty.update "k"
            (some { count := 1, firstAttempt := 0, lockedUntil := some 500000 }))
          "k" 100 "k"
        = some r2 ∧ r2.lockedUntil.isSome) :=
  c2_active_lock_blocks_and_survives_record _ "k" 100
    { count := 1, firstAttempt := 0, lockedUntil := some 500000 } 500000
    (by decide) rfl (by decide)

/-- C6: for every prior server-side state (any backend, any stored record,
locked or not), `clearAttempts` followed by the status check reports allowed
with `remainingAttempts = MAX_ATTEMPTS`. -/
theorem c6_reset_then_check_allows_full
    (st : RateLimit.SysState) (email : String) (now : Nat) :
    (RateLimit.checkRateLimitSys (RateLimit.clearAttemptsSys st email) email now).1
      = { isLimited := false, retryAfter := none,
          remainingAttempts := some RateLimit.MAX_ATTEMPTS } := by
  rcases st with ⟨b, mem, db⟩
  cases b <;>
    simp [RateLimit.clearAttemptsSys, RateLimit.checkRateLimitSys, RateLimit.checkSyncMem,
      RateLimit.clearAttempts, RateLimit.Store.update, RateLimit.allowedFull]

/-- C7: with `RATE_LIMIT_STORAGE = auto` and the database table unreachable,
every sequence of check/record/reset calls yields exactly the observable
results of the `memory` configuration. -/
theorem c7_auto_with_unreachable_db_equals_memory
    (ops : List RateLimit.Op) (dbReachable : Bool) :
    RateLimit.runSystem .auto false ops = RateLimit.runSystem .memory dbReachable ops := rfl

/-- C9: while the database storage backend is active, the synchronous check
returns not-limited with full remaining attempts for every identity and every
table content — it never blocks, no matter how many failures are stored. -/
theorem c9_sync_check_never_blocks_on_database_backend
    (mem db : RateLimit.Store) (email : String) (now : Nat) :
    RateLimit.checkRateLimitSys { backend := .database, mem := mem, db := db } email now
      = ({ isLimited := false, retryAfter := none,
           remainingAttempts := some RateLimit.MAX_ATTEMPTS },
         { backend := .database, mem := mem, db := db }) := rfl

/-- C3: when the probe ciphertext is absent, a submission that reaches the
verification step (non-blank password, not rate limited, storage writes
succeeding) always succeeds, handing `onSuccess` exactly the candidate key
(the password-derived key, combined with the URL key when one exists); no
decryption is attempted and the rate-limit state is left as the allowance
check left it — no failure is recorded. -/
theorem c3_absent_probe_always_succeeds
    (ops : Client.CryptoOps) (passwordSalt password : String) (urlKey : Option (List Nat))
    (localWriteOk : Bool) (s : Client.ClientState) (now : Nat)
    (hpw : Client.isBlank password = false)
    (hallowed : (Client.isRateLimited s now).1 = false) :
    Client.handleSubmit ops passwordSalt urlKey none password localWriteOk true s now
      = { outcome := .success (match urlKey with
            | some k => ops.combineKeys k
                (ops.deriveKeyFromPassword password (ops.base64ToKey passwordSalt) k.length)
            | none => ops.deriveKeyFromPassword password (ops.base64ToKey passwordSalt) 32),
          state := (Client.isRateLimited s now).2,
          deriveCalls := 1, decryptCalls := 0 } := by
  cases urlKey <;>
    simp [Client.handleSubmit, hpw, hallowed, Client.handleSubmit.successTail]

/-- Witness for C3 at concrete inputs. -/
theorem c3_absent_probe_always_succeeds_witness :
    Client.handleSubmit
        ⟨fun _ => [], fun _ _ _ => [1, 2], fun _ k => k, fun _ _ => true⟩
        "salt" none none "pw" true true { attempts := [], lockedUntil := none } 50
      = { outcome := .success [1, 2],
          state := { attempts := [], lockedUntil := none },
          deriveCalls := 1, decryptCalls := 0 } :=
  c3_absent_probe_always_succeeds
    ⟨fun _ => [], fun _ _ _ => [1, 2], fun _ k => k, fun _ _ => true⟩
    "salt" "pw" none true { attempts := [], lockedUntil := none } 50
    (by decide) (by decide)

/-- C4: a non-blank submission that the rate-limit check reports as blocked
stops immediately: the outcome is the too-many-attempts error, key derivation
and probe decryption are never invoked, and the resulting state carries a
lockout deadline strictly in the future (whose remaining time the UI
surfaces). -/
theorem c4_blocked_submission_derives_nothing
    (ops : Client.CryptoOps) (passwordSalt password : String) (urlKey : Option (List Nat))
    (encryptedGroupName : Option String) (localWriteOk sessionWriteOk : Bool)
    (s : Client.ClientState) (now : Nat)
    (hpw : Client.isBlank password = false)
    (hlim : (Client.isRateLimited s now).1 = true) :
    (Client.handleSubmit ops passwordSalt urlKey encryptedGroupName password
        localWriteOk sessionWriteOk s now).outcome = .blocked ∧
    (Client.handleSubmit ops passwordSalt urlKey encryptedGroupName password
        localWriteOk sessionWriteOk s now).deriveCalls = 0 ∧
    (Client.handleSubmit ops passwordSalt urlKey encryptedGroupName password
        localWriteOk sessionWriteOk s now).decryptCalls = 0 ∧
    ∃ l, (Client.handleSubmit ops passwordSalt urlKey encryptedGroupName password
        localWriteOk sessionWriteOk s now).state.lockedUntil = some l ∧ now < l := by
  rcases h1 : (Client.isRateLimited s now).2.lockedUntil with _ | l
  · simp [Client.handleSubmit, hpw, hlim, h1, Client.LOCKOUT_DURATION_MS]
  · by_cases hle : l ≤ now
    · simp [Client.handleSubmit, hpw, hlim, h1, hle, Client.LOCKOUT_DURATION_MS]
    · simp [Client.handleSubmit, hpw, hlim, h1, hle, Nat.lt_of_not_le hle]

/-- Witness for C4 at concrete inputs. -/
theorem c4_blocked_submission_derives_nothing_witness :
    (Client.handleSubmit
        ⟨fun _ => [], fun _ _ _ => [1, 2], fun _ k => k, fun _ _ => true⟩
        "salt" none none "pw" true true
        { attempts := [0, 0, 0, 0, 0], lockedUntil := none } 10).outcome = .blocked ∧
    (Client.handleSubmit
        ⟨fun _ => [], fun _ _ _ => [1, 2], fun _ k => k, fun _ _ => true⟩
        "salt" none none "pw" true true
        { attempts := [0, 0, 0, 0, 0], lockedUntil := none } 10).deriveCalls = 0 ∧
    (Client.handleSubmit
        ⟨fun _ => [], fun _ _ _ => [1, 2], fun _ k => k, fun _ _ => true⟩
        "salt" none none "pw" true true
        { attempts := [0, 0, 0, 0, 0], lockedUntil := none } 10).decryptCalls = 0 ∧
    ∃ l, (Client.handleSubmit
        ⟨fun _ => [], fun _ _ _ => [1, 2], fun _ k => k, fun _ _ => true⟩
        "salt" none none "pw" true true
        { attempts := [0, 0, 0, 0, 0], lockedUntil := none } 10).state.lockedUntil = some l
      ∧ 10 < l :=
  c4_blocked_submission_derives_nothing
    ⟨fun _ => [], fun _ _ _ => [1, 2], fun _ k => k, fun _ _ => true⟩
    "salt" "pw" none none true true
    { attempts := [0, 0, 0, 0, 0], lockedUntil := none } 10
    (by decide) (by decide)

/-- C5 (code bug): on the success path with the probe absent, a failing
`sessionStorage.setItem` (`part_002` lines 189-192, the only storage access
not wrapped in its own try/catch) falls into the outer catch, which records a
failed attempt and shows the invalid-password error instead of failing
silently; the second conjunct shows the identical submission succeeds when
that write does not throw. -/
theorem c5_session_write_failure_counted_as_wrong_password :
    Client.handleSubmit
        ⟨fun _ => [], fun _ _ _ => List.replicate 32 0, fun _ k => k, fun _ _ => true⟩
        "salt" none none "pw" true false { attempts := [], lockedUntil := none } 1000
      = { outcome := .invalid, state := { attempts := [1000], lockedUntil := none },
          deriveCalls := 1, decryptCalls := 0 } ∧
    (Client.handleSubmit
        ⟨fun _ => [], fun _ _ _ => List.replicate 32 0, fun _ k => k, fun _ _ => true⟩
        "salt" none none "pw" true true { attempts := [], lockedUntil := none } 1000).outcome
      = .success (List.replicate 32 0) :=
  ⟨by decide, by decide⟩

/-- C8: for every rate-limited operation whose (parsed) input carries a
non-empty `groupId`, the middleware scopes the limit to the composite key
`operation:groupId` and checks it before anything else; when limited it
throws too-many-requests carrying the check's retry time and neither records
an attempt nor runs the handler, and otherwise it records the attempt and
then runs the handler.  `check` abstracts the imported
`checkOperationRateLimit` applied to the configured limits. -/
theorem c8_middleware_checks_then_records_then_runs
    (operation g : String) (raw : Option String)
    (check : String → Middleware.OpCheckResult)
    (hg : g.isEmpty = false) :
    ((check (operation ++ ":" ++ g)).isLimited = true →
      Middleware.rateLimitMiddleware operation check (some g) raw
        = (.tooManyRequests (check (operation ++ ":" ++ g)).retryAfter,
           [.checked (operation ++ ":" ++ g)])) ∧
    ((check (operation ++ ":" ++ g)).isLimited = false →
      Middleware.rateLimitMiddleware operation check (some g) raw
        = (.handled, [.checked (operation ++ ":" ++ g), .recorded (operation ++ ":" ++ g),
           .handlerRun])) := by
  constructor <;> intro h <;>
    simp [Middleware.rateLimitMiddleware, Middleware.truthyId, hg, h]

/-- Witness for C8 at concrete inputs (not-limited case). -/
theorem c8_middleware_checks_then_records_then_runs_witness :
    Middleware.rateLimitMiddleware "create-expense"
        (fun _ => { isLimited := false, retryAfter := none }) (some "g1") none
      = (.handled, [.checked ("create-expense" ++ ":" ++ "g1"),
         .recorded ("create-expense" ++ ":" ++ "g1"), .handlerRun]) :=
  (c8_middleware_checks_then_records_then_runs "create-expense" "g1" none
    (fun _ => { isLimited := false, retryAfter := none }) (by decide)).2 rfl

/-- C10: when neither the parsed input nor the raw input carries a truthy
`groupId`, the middleware performs no limit check and records no attempt, and
invokes the downstream handler unconditionally. -/
theorem c10_missing_group_id_fails_open
    (operation : String) (check : String → Middleware.OpCheckResult)
    (parsed raw : Option String)
    (hp : Middleware.truthyId parsed = false) (hr : Middleware.truthyId raw = false) :
    Middleware.rateLimitMiddleware operation check parsed raw
      = (.handled, [.handlerRun]) := by
  rcases raw with _ | g
  · simp [Middleware.rateLimitMiddleware, hp]
  · have hre : g.isEmpty = true := by simpa [Middleware.truthyId] using hr
    simp [Middleware.rateLimitMiddleware, hp, hre]

/-- Witness for C10 at concrete inputs. -/
theorem c10_missing_group_id_fails_open_witness :
    Middleware.rateLimitMiddleware "delete"
        (fun _ => { isLimited := true, retryAfter := some 3 }) none (some "")
      = (.handled, [.handlerRun]) :=
  c10_missing_group_id_fails_open "delete"
    (fun _ => { isLimited := true, retryAfter := some 3 }) none (some "")
    (by decide) (by decide)
